import Mathlib

/-! Shallow embedding of the compartmental epidemic models of the
Disease_Modeling repository: the SIR-with-Demography variant
(`ModelClasses/SIRwDemoClass.py`), the base SEIR variant
(`SEIRClass.py`) and the SEIR-with-Seasonality variant
(`SEIRSeasonalityClass.py`).  Python floats are modelled as real
numbers; the state lists `[S, I, R]` and `[S, E, I, R]` as records
whose field order matches the list layout; the external
`scipy.integrate.odeint` solver as an explicit function argument of
`simulate`; and the Python attribute `results`, absent until the first
call to `simulate`, as an `Option` field that construction leaves at
`none`.  Constructors and `simulate` are embedded in an `Except` error
channel so that statements about raised exceptions can be made; the
source contains no `raise` and no exception classes, so every embedded
operation returns `Except.ok`. -/

/-- Error taxonomy named by the specification: InvalidParameterError,
InvalidInitialConditionError, IntegrationError.  No such classes exist
anywhere in the source; the type is declared only so that claims about
raising them can be stated. -/
inductive ModelError where
  | invalidParameter
  | invalidInitialCondition
  | integrationError

/-- Ordered compartment values for the SIR-with-Demography model; the
field order `S`, `I`, `R` matches the source's list layout `[S, I, R]`
(the unpacking `S, I, R = y` and the returned list `[dSdt, dIdt, dRdt]`). -/
structure State3 where
  S : ℝ
  I : ℝ
  R : ℝ

/-- Ordered compartment values for the SEIR models; the field order `S`,
`E`, `I`, `R` matches the source's list layout `[S, E, I, R]`. -/
structure State4 where
  S : ℝ
  E : ℝ
  I : ℝ
  R : ℝ

/-- Sum of the three compartments of a `State3`. -/
def State3.total (y : State3) : ℝ := y.S + y.I + y.R

/-- Sum of the four compartments of a `State4`. -/
def State4.total (y : State4) : ℝ := y.S + y.E + y.I + y.R

/-- One forward step of size `dt` along a derivative vector `d`,
componentwise `y + dt * d`. -/
def State3.step (y : State3) (dt : ℝ) (d : State3) : State3 :=
  ⟨y.S + dt * d.S, y.I + dt * d.I, y.R + dt * d.R⟩

/-- One forward step of size `dt` along a derivative vector `d`,
componentwise `y + dt * d`. -/
def State4.step (y : State4) (dt : ℝ) (d : State4) : State4 :=
  ⟨y.S + dt * d.S, y.E + dt * d.E, y.I + dt * d.I, y.R + dt * d.R⟩

/-- Reference forward-Euler discretization over `n` steps of size `dt`
starting at state `y` and time `t`.  The source delegates integration to
the external solver; this discretization is used only to express the
trajectory-level consequences of the derivative-level identities. -/
def eulerOrbit3 (f : State3 → ℝ → State3) (dt : ℝ) : ℕ → State3 → ℝ → State3
  | 0, y, _ => y
  | n + 1, y, t => eulerOrbit3 f dt n (y.step dt (f y t)) (t + dt)

/-- Reference forward-Euler discretization over `n` steps of size `dt`
starting at state `y` and time `t`, for the four-compartment models. -/
def eulerOrbit4 (f : State4 → ℝ → State4) (dt : ℝ) : ℕ → State4 → ℝ → State4
  | 0, y, _ => y
  | n + 1, y, t => eulerOrbit4 f dt n (y.step dt (f y t)) (t + dt)

/-- Embedding of the Python class `SIRWithDemography`: the attributes
set by `__init__` plus the `results` attribute that exists only after
`simulate` has run (`none` encodes the absent attribute). -/
structure SIRWithDemography where
  beta : ℝ
  gamma : ℝ
  mu : ℝ
  initial_conditions : State3
  results : Option (List State3)

/-- Embedding of `SIRWithDemography.__init__`: the constructor only
stores its arguments verbatim; the body performs no validation and
raises nothing, so the embedded constructor always returns `Except.ok`. -/
def SIRWithDemography.init (beta gamma mu : ℝ) (initial_conditions : State3) :
    Except ModelError SIRWithDemography :=
  Except.ok ⟨beta, gamma, mu, initial_conditions, none⟩

/-- Embedding of `SIRWithDemography.sir_demography_equations`: returns
`[mu - beta*S*I - mu*S, beta*S*I - gamma*I - mu*I, gamma*I - mu*R]`. -/
def SIRWithDemography.sir_demography_equations (m : SIRWithDemography)
    (y : State3) (t : ℝ) : State3 :=
  ⟨m.mu - m.beta * y.S * y.I - m.mu * y.S,
   m.beta * y.S * y.I - m.gamma * y.I - m.mu * y.I,
   m.gamma * y.I - m.mu * y.R⟩

/-- Embedding of `SIRWithDemography.simulate`: `odeint` is the external
scipy solver, passed explicitly; the body is the single assignment
`self.results = odeint(self.sir_demography_equations,
self.initial_conditions, t)`, with no error handling around it. -/
def SIRWithDemography.simulate (m : SIRWithDemography)
    (odeint : (State3 → ℝ → State3) → State3 → List ℝ → List State3)
    (t : List ℝ) : Except ModelError SIRWithDemography :=
  Except.ok { m with
    results := some (odeint (fun y s => m.sir_demography_equations y s)
      m.initial_conditions t) }

/-- Embedding of the Python class `SEIRModel`: the attributes set by
`__init__` plus the `results` attribute that exists only after
`simulate` has run (`none` encodes the absent attribute). -/
structure SEIRModel where
  beta : ℝ
  gamma : ℝ
  sigma : ℝ
  initial_conditions : State4
  results : Option (List State4)

/-- Embedding of `SEIRModel.__init__`: the constructor only stores its
arguments verbatim; the body performs no validation and raises nothing,
so the embedded constructor always returns `Except.ok`. -/
def SEIRModel.init (beta gamma sigma : ℝ) (initial_conditions : State4) :
    Except ModelError SEIRModel :=
  Except.ok ⟨beta, gamma, sigma, initial_conditions, none⟩

/-- Embedding of `SEIRModel.seir_equations`: returns
`[-beta*S*I, beta*S*I - sigma*E, sigma*E - gamma*I, gamma*I]`. -/
def SEIRModel.seir_equations (m : SEIRModel) (y : State4) (t : ℝ) : State4 :=
  ⟨-(m.beta * y.S * y.I),
   m.beta * y.S * y.I - m.sigma * y.E,
   m.sigma * y.E - m.gamma * y.I,
   m.gamma * y.I⟩

/-- Embedding of `SEIRModel.simulate`: the single assignment
`self.results = odeint(self.seir_equations, self.initial_conditions, t)`
with no error handling around it. -/
def SEIRModel.simulate (m : SEIRModel)
    (odeint : (State4 → ℝ → State4) → State4 → List ℝ → List State4)
    (t : List ℝ) : Except ModelError SEIRModel :=
  Except.ok { m with
    results := some (odeint (fun y s => m.seir_equations y s)
      m.initial_conditions t) }

/-- Embedding of the Python class `SEIRModelWithSeasonality`, which
extends `SEIRModel`: the inherited attributes (the baseline `beta0` is
stored in the inherited `beta` field by the base constructor) plus the
seasonal amplitude `beta1`. -/
structure SEIRModelWithSeasonality extends SEIRModel where
  beta1 : ℝ

/-- Embedding of `SEIRModelWithSeasonality.__init__`: the body calls
`super().__init__(beta0, gamma, sigma, initial_conditions)` and then
sets `self.beta1 = beta1`; no further validation or storage happens. -/
def SEIRModelWithSeasonality.init (beta0 beta1 gamma sigma : ℝ)
    (initial_conditions : State4) : Except ModelError SEIRModelWithSeasonality :=
  Except.map (fun base => { toSEIRModel := base, beta1 := beta1 })
    (SEIRModel.init beta0 gamma sigma initial_conditions)

/-- Embedding of `SEIRModelWithSeasonality.seir_seasonal_equations`:
computes `beta_t = self.beta * (1 + self.beta1 * np.cos(2 * np.pi * t / 365))`
and returns `[-beta_t*S*I, beta_t*S*I - sigma*E, sigma*E - gamma*I, gamma*I]`. -/
noncomputable def SEIRModelWithSeasonality.seir_seasonal_equations
    (m : SEIRModelWithSeasonality) (y : State4) (t : ℝ) : State4 :=
  let beta_t := m.beta * (1 + m.beta1 * Real.cos (2 * Real.pi * t / 365))
  ⟨-(beta_t * y.S * y.I),
   beta_t * y.S * y.I - m.sigma * y.E,
   m.sigma * y.E - m.gamma * y.I,
   m.gamma * y.I⟩

/-- Embedding of `SEIRModelWithSeasonality.simulate`: the single
assignment `self.results = odeint(self.seir_seasonal_equations,
self.initial_conditions, t)` with no error handling around it. -/
noncomputable def SEIRModelWithSeasonality.simulate
    (m : SEIRModelWithSeasonality)
    (odeint : (State4 → ℝ → State4) → State4 → List ℝ → List State4)
    (t : List ℝ) : Except ModelError SEIRModelWithSeasonality :=
  Except.ok { m with
    results := some (odeint (fun y s => m.seir_seasonal_equations y s)
      m.initial_conditions t) }

/-- Helper: the sum of the SIR-with-Demography derivative components is
`mu * (1 - (S + I + R))` at every state and time. -/
theorem SIRWithDemography.sir_total_equations (m : SIRWithDemography)
    (y : State3) (t : ℝ) :
    (m.sir_demography_equations y t).total = m.mu * (1 - y.total) := by
  simp only [sir_demography_equations, State3.total]
  ring

/-- Helper: the sum of the base SEIR derivative components is `0` at
every state and time. -/
theorem SEIRModel.seir_total_equations (m : SEIRModel) (y : State4) (t : ℝ) :
    (m.seir_equations y t).total = 0 := by
  simp only [seir_equations, State4.total]
  ring

/-- Helper: the sum of the seasonal SEIR derivative components is `0` at
every state and time. -/
theorem SEIRModelWithSeasonality.seasonal_total_equations
    (m : SEIRModelWithSeasonality) (y : State4) (t : ℝ) :
    (m.seir_seasonal_equations y t).total = 0 := by
  simp only [seir_seasonal_equations, State4.total]
  ring

/-- C1: a SIR-with-Demography variant constructed with parameters
`beta`, `gamma`, `mu` has a derivative function that returns, at every
state `(S, I, R)` and time `t`, exactly the vector
`[mu - beta*S*I - mu*S, beta*S*I - gamma*I - mu*I, gamma*I - mu*R]`,
in that compartment order. -/
theorem sir_demography_equations_exact (beta gamma mu : ℝ) (ic : State3)
    (m : SIRWithDemography)
    (h : SIRWithDemography.init beta gamma mu ic = Except.ok m) :
    ∀ (y : State3) (t : ℝ),
      m.sir_demography_equations y t =
        ⟨mu - beta * y.S * y.I - mu * y.S,
         beta * y.S * y.I - gamma * y.I - mu * y.I,
         gamma * y.I - mu * y.R⟩ := by
  simp only [SIRWithDemography.init, Except.ok.injEq] at h
  subst h
  intro y t
  rfl

/-- Witness for C1 at the spec's concrete SIR scenario
(`beta = 0.3`, `gamma = 0.1`, `mu = 0.01`, initial `[0.99, 0.01, 0]`). -/
theorem sir_demography_equations_exact_witness :
    SIRWithDemography.init 0.3 0.1 0.01 ⟨0.99, 0.01, 0⟩ =
      Except.ok ⟨0.3, 0.1, 0.01, ⟨0.99, 0.01, 0⟩, none⟩ ∧
    SIRWithDemography.sir_demography_equations
        ⟨0.3, 0.1, 0.01, ⟨0.99, 0.01, 0⟩, none⟩ ⟨0.99, 0.01, 0⟩ 0 =
      ⟨0.01 - 0.3 * 0.99 * 0.01 - 0.01 * 0.99,
       0.3 * 0.99 * 0.01 - 0.1 * 0.01 - 0.01 * 0.01,
       0.1 * 0.01 - 0.01 * 0⟩ :=
  ⟨rfl,
   sir_demography_equations_exact 0.3 0.1 0.01 ⟨0.99, 0.01, 0⟩
     ⟨0.3, 0.1, 0.01, ⟨0.99, 0.01, 0⟩, none⟩ rfl ⟨0.99, 0.01, 0⟩ 0⟩

/-- C2: a base SEIR variant constructed with parameters `beta`, `gamma`,
`sigma` has a derivative function that returns, at every state
`(S, E, I, R)` and time `t`, exactly the vector
`[-beta*S*I, beta*S*I - sigma*E, sigma*E - gamma*I, gamma*I]`, in that
compartment order. -/
theorem seir_equations_exact (beta gamma sigma : ℝ) (ic : State4)
    (m : SEIRModel)
    (h : SEIRModel.init beta gamma sigma ic = Except.ok m) :
    ∀ (y : State4) (t : ℝ),
      m.seir_equations y t =
        ⟨-(beta * y.S * y.I),
         beta * y.S * y.I - sigma * y.E,
         sigma * y.E - gamma * y.I,
         gamma * y.I⟩ := by
  simp only [SEIRModel.init, Except.ok.injEq] at h
  subst h
  intro y t
  rfl

/-- Witness for C2 at the spec's concrete SEIR scenario
(`beta = 0.3`, `gamma = 0.1`, `sigma = 0.2`, initial `[0.99, 0, 0.01, 0]`). -/
theorem seir_equations_exact_witness :
    SEIRModel.init 0.3 0.1 0.2 ⟨0.99, 0, 0.01, 0⟩ =
      Except.ok ⟨0.3, 0.1, 0.2, ⟨0.99, 0, 0.01, 0⟩, none⟩ ∧
    SEIRModel.seir_equations ⟨0.3, 0.1, 0.2, ⟨0.99, 0, 0.01, 0⟩, none⟩
        ⟨0.99, 0, 0.01, 0⟩ 0 =
      ⟨-(0.3 * 0.99 * 0.01),
       0.3 * 0.99 * 0.01 - 0.2 * 0,
       0.2 * 0 - 0.1 * 0.01,
       0.1 * 0.01⟩ :=
  ⟨rfl,
   seir_equations_exact 0.3 0.1 0.2 ⟨0.99, 0, 0.01, 0⟩
     ⟨0.3, 0.1, 0.2, ⟨0.99, 0, 0.01, 0⟩, none⟩ rfl ⟨0.99, 0, 0.01, 0⟩ 0⟩

/-- C3: the seasonal SEIR derivative function computes
`beta(t) = beta * (1 + beta1 * cos(2*pi*t/365))` and returns
`[-beta(t)*S*I, beta(t)*S*I - sigma*E, sigma*E - gamma*I, gamma*I]`; its
`I` and `R` components (the gamma and sigma terms) coincide with the
base SEIR derivative of the underlying base model; and the seasonal
constructor stores `beta0`, `gamma`, `sigma` and the initial conditions
through the base constructor, adding only the `beta1` field. -/
theorem seir_seasonal_equations_exact :
    (∀ (m : SEIRModelWithSeasonality) (y : State4) (t : ℝ),
        m.seir_seasonal_equations y t =
          ⟨-(m.beta * (1 + m.beta1 * Real.cos (2 * Real.pi * t / 365)) * y.S * y.I),
           m.beta * (1 + m.beta1 * Real.cos (2 * Real.pi * t / 365)) * y.S * y.I -
             m.sigma * y.E,
           m.sigma * y.E - m.gamma * y.I,
           m.gamma * y.I⟩) ∧
    (∀ (m : SEIRModelWithSeasonality) (y : State4) (t : ℝ),
        (m.seir_seasonal_equations y t).I = (m.toSEIRModel.seir_equations y t).I ∧
        (m.seir_seasonal_equations y t).R = (m.toSEIRModel.seir_equations y t).R) ∧
    (∀ (beta0 beta1 gamma sigma : ℝ) (ic : State4),
        SEIRModelWithSeasonality.init beta0 beta1 gamma sigma ic =
          Except.map (fun base => ⟨base, beta1⟩)
            (SEIRModel.init beta0 gamma sigma ic) ∧
        SEIRModelWithSeasonality.init beta0 beta1 gamma sigma ic =
          Except.ok ⟨⟨beta0, gamma, sigma, ic, none⟩, beta1⟩) :=
  ⟨fun _ _ _ => rfl,
   fun _ _ _ => ⟨rfl, rfl⟩,
   fun _ _ _ _ _ => ⟨rfl, rfl⟩⟩

/-- C4 counterexample: constructing the base SEIR variant with negative
rate constants (`beta = gamma = sigma = -1`) and a negative initial
compartment fraction (`E = -1`), the constructor returns the model with
the values stored verbatim; it raises neither an
`InvalidParameterError` nor an `InvalidInitialConditionError`. -/
theorem seir_init_no_validation :
    SEIRModel.init (-1) (-1) (-1) ⟨2, -1, 0, 0⟩ =
      Except.ok ⟨-1, -1, -1, ⟨2, -1, 0, 0⟩, none⟩ ∧
    SEIRModel.init (-1) (-1) (-1) ⟨2, -1, 0, 0⟩ ≠
      Except.error ModelError.invalidParameter ∧
    SEIRModel.init (-1) (-1) (-1) ⟨2, -1, 0, 0⟩ ≠
      Except.error ModelError.invalidInitialCondition :=
  ⟨rfl, by simp [SEIRModel.init], by simp [SEIRModel.init]⟩

/-- C4 amended: construction performs no validation in any variant: for
every parameter values and initial conditions, including negative or
non-unit-sum ones, each constructor returns the model with the values
stored verbatim and never returns an error. -/
theorem init_stores_verbatim :
    (∀ (b g mu : ℝ) (ic : State3),
        SIRWithDemography.init b g mu ic = Except.ok ⟨b, g, mu, ic, none⟩) ∧
    (∀ (b g s : ℝ) (ic : State4),
        SEIRModel.init b g s ic = Except.ok ⟨b, g, s, ic, none⟩) ∧
    (∀ (b0 b1 g s : ℝ) (ic : State4),
        SEIRModelWithSeasonality.init b0 b1 g s ic =
          Except.ok ⟨⟨b0, g, s, ic, none⟩, b1⟩) :=
  ⟨fun _ _ _ _ => rfl, fun _ _ _ _ => rfl, fun _ _ _ _ _ => rfl⟩

/-- Helper: with seasonal amplitude `beta1 = 0` the seasonal derivative
function agrees with the base SEIR derivative of the underlying base
model at every state and time. -/
theorem SEIRModelWithSeasonality.equations_of_beta1_zero
    (m : SEIRModelWithSeasonality) (h : m.beta1 = 0) (y : State4) (t : ℝ) :
    m.seir_seasonal_equations y t = m.toSEIRModel.seir_equations y t := by
  have hb : m.beta * (1 + m.beta1 * Real.cos (2 * Real.pi * t / 365)) = m.beta := by
    rw [h]
    ring
  simp only [seir_seasonal_equations, SEIRModel.seir_equations, hb]

/-- C5: if a seasonal SEIR variant has `beta1 = 0` then its derivative
function returns, at every state and time, exactly the value the base
SEIR derivative function returns for `beta = beta0` (the underlying base
model) with the same `gamma` and `sigma`; consequently `simulate` with
the same solver, initial conditions and time grid stores the same
trajectory as the base model's `simulate`. -/
theorem seasonal_beta1_zero_reduces_to_base (m : SEIRModelWithSeasonality)
    (h : m.beta1 = 0) :
    (∀ (y : State4) (t : ℝ),
        m.seir_seasonal_equations y t = m.toSEIRModel.seir_equations y t) ∧
    (∀ (odeint : (State4 → ℝ → State4) → State4 → List ℝ → List State4)
        (t : List ℝ),
        Except.map (fun x => x.results) (m.simulate odeint t) =
          Except.map (fun x => x.results) (m.toSEIRModel.simulate odeint t)) := by
  have h1 : ∀ (y : State4) (t : ℝ),
      m.seir_seasonal_equations y t = m.toSEIRModel.seir_equations y t :=
    m.equations_of_beta1_zero h
  refine ⟨h1, fun odeint t => ?_⟩
  have hf : (fun y s => m.seir_seasonal_equations y s) =
      (fun y s => m.toSEIRModel.seir_equations y s) := by
    funext y s
    exact h1 y s
  simp only [SEIRModelWithSeasonality.simulate, SEIRModel.simulate, hf,
    Except.map]

/-- Witness for C5 at the source's example seasonal parameters with the
amplitude set to 0 (`beta0 = 0.3`, `gamma = 0.1`, `sigma = 0.2`,
initial `[0.99, 0, 0.01, 0]`), evaluated at time 7. -/
theorem seasonal_beta1_zero_reduces_to_base_witness :
    (⟨⟨0.3, 0.1, 0.2, ⟨0.99, 0, 0.01, 0⟩, none⟩, 0⟩ :
        SEIRModelWithSeasonality).beta1 = 0 ∧
    (⟨⟨0.3, 0.1, 0.2, ⟨0.99, 0, 0.01, 0⟩, none⟩, 0⟩ :
        SEIRModelWithSeasonality).seir_seasonal_equations ⟨0.99, 0, 0.01, 0⟩ 7 =
      SEIRModel.seir_equations ⟨0.3, 0.1, 0.2, ⟨0.99, 0, 0.01, 0⟩, none⟩
        ⟨0.99, 0, 0.01, 0⟩ 7 :=
  ⟨rfl,
   (seasonal_beta1_zero_reduces_to_base
     ⟨⟨0.3, 0.1, 0.2, ⟨0.99, 0, 0.01, 0⟩, none⟩, 0⟩ rfl).1 ⟨0.99, 0, 0.01, 0⟩ 7⟩

/-- Helper: a forward step along the base SEIR derivative preserves the
compartment sum. -/
theorem SEIRModel.seir_total_step (m : SEIRModel) (y : State4) (dt t : ℝ) :
    (y.step dt (m.seir_equations y t)).total = y.total := by
  simp only [State4.step, State4.total, seir_equations]
  ring

/-- Helper: a forward step along the SIR-with-Demography derivative from
a state of compartment sum 1 lands on a state of compartment sum 1. -/
theorem SIRWithDemography.sir_total_step (m : SIRWithDemography) (y : State3)
    (dt t : ℝ) (h : y.total = 1) :
    (y.step dt (m.sir_demography_equations y t)).total = 1 := by
  simp only [State3.step, State3.total, sir_demography_equations]
  simp only [State3.total] at h
  linear_combination (1 - dt * m.mu) * h

/-- Helper: the forward-Euler orbit of the base SEIR derivative keeps
the compartment sum constant. -/
theorem SEIRModel.seir_total_eulerOrbit (m : SEIRModel) (dt : ℝ) (n : ℕ) :
    ∀ (y : State4) (t : ℝ),
      (eulerOrbit4 (fun z s => m.seir_equations z s) dt n y t).total = y.total := by
  induction n with
  | zero => intro y t; rfl
  | succ k ih =>
    intro y t
    calc (eulerOrbit4 (fun z s => m.seir_equations z s) dt (k + 1) y t).total
        = (y.step dt (m.seir_equations y t)).total := ih _ _
      _ = y.total := m.seir_total_step y dt t

/-- Helper: the forward-Euler orbit of the SIR-with-Demography
derivative keeps a compartment sum of 1. -/
theorem SIRWithDemography.sir_total_eulerOrbit (m : SIRWithDemography)
    (dt : ℝ) (n : ℕ) :
    ∀ (y : State3) (t : ℝ), y.total = 1 →
      (eulerOrbit3 (fun z s => m.sir_demography_equations z s) dt n y t).total = 1 := by
  induction n with
  | zero => intro y t h; exact h
  | succ k ih =>
    intro y t h
    exact ih _ _ (m.sir_total_step y dt t h)

/-- C6: the four components returned by the base and the seasonal SEIR
derivative functions sum to exactly 0 at every state and time; the three
components returned by the SIR-with-Demography derivative function sum
to exactly 0 at every state with `S + I + R = 1`; and hence a
forward-Euler trajectory started at a state of compartment sum 1 keeps
the sum at 1 at every step, for the base SEIR and the SIR-with-Demography
derivatives. -/
theorem derivative_conservation :
    (∀ (m : SEIRModel) (y : State4) (t : ℝ),
        (m.seir_equations y t).total = 0) ∧
    (∀ (m : SEIRModelWithSeasonality) (y : State4) (t : ℝ),
        (m.seir_seasonal_equations y t).total = 0) ∧
    (∀ (m : SIRWithDemography) (y : State3) (t : ℝ), y.total = 1 →
        (m.sir_demography_equations y t).total = 0) ∧
    (∀ (m : SEIRModel) (dt : ℝ) (n : ℕ) (y : State4) (t : ℝ), y.total = 1 →
        (eulerOrbit4 (fun z s => m.seir_equations z s) dt n y t).total = 1) ∧
    (∀ (m : SIRWithDemography) (dt : ℝ) (n : ℕ) (y : State3) (t : ℝ),
        y.total = 1 →
        (eulerOrbit3 (fun z s => m.sir_demography_equations z s) dt n y t).total = 1) := by
  refine ⟨fun m y t => m.seir_total_equations y t,
    fun m y t => m.seasonal_total_equations y t,
    fun m y t h => ?_,
    fun m dt n y t h => by rw [m.seir_total_eulerOrbit dt n y t, h],
    fun m dt n y t h => m.sir_total_eulerOrbit dt n y t h⟩
  rw [m.sir_total_equations y t, h]
  ring

/-- Witness for C6 at the state `[1, 0, 0]` (sum 1) for the spec's
concrete SIR-with-Demography parameters. -/
theorem derivative_conservation_witness :
    ((⟨1, 0, 0⟩ : State3).total = 1) ∧
    (SIRWithDemography.sir_demography_equations
        ⟨0.3, 0.1, 0.01, ⟨1, 0, 0⟩, none⟩ ⟨1, 0, 0⟩ 0).total = 0 :=
  ⟨by simp [State3.total],
   derivative_conservation.2.2.1 ⟨0.3, 0.1, 0.01, ⟨1, 0, 0⟩, none⟩ ⟨1, 0, 0⟩ 0
     (by simp [State3.total])⟩

/-- C7: at every state with `I = 0` the infected component of the
SIR-with-Demography derivative is exactly 0, and hence a forward-Euler
trajectory started at a state with `I = 0` keeps the infected
compartment at 0 at every step. -/
theorem disease_free_invariant (m : SIRWithDemography) :
    (∀ (a r t : ℝ), (m.sir_demography_equations ⟨a, 0, r⟩ t).I = 0) ∧
    (∀ (dt : ℝ) (n : ℕ) (y : State3) (t : ℝ), y.I = 0 →
        (eulerOrbit3 (fun z s => m.sir_demography_equations z s) dt n y t).I = 0) := by
  have hstep : ∀ (y : State3) (dt t : ℝ), y.I = 0 →
      (y.step dt (m.sir_demography_equations y t)).I = 0 := by
    intro y dt t h
    simp only [State3.step, SIRWithDemography.sir_demography_equations, h]
    ring
  refine ⟨fun a r t => ?_, fun dt n => ?_⟩
  · simp only [SIRWithDemography.sir_demography_equations]
    ring
  · induction n with
    | zero => intro y t h; exact h
    | succ k ih =>
      intro y t h
      exact ih _ _ (hstep y dt t h)

/-- Witness for C7: two Euler steps of size 1 from the disease-free
state `[1, 0, 0]` keep the infected compartment at 0. -/
theorem disease_free_invariant_witness :
    ((⟨1, 0, 0⟩ : State3).I = 0) ∧
    (eulerOrbit3
        (fun z s => SIRWithDemography.sir_demography_equations
          ⟨0.3, 0.1, 0.01, ⟨1, 0, 0⟩, none⟩ z s) 1 2 ⟨1, 0, 0⟩ 0).I = 0 :=
  ⟨rfl,
   (disease_free_invariant ⟨0.3, 0.1, 0.01, ⟨1, 0, 0⟩, none⟩).2 1 2 ⟨1, 0, 0⟩ 0 rfl⟩

/-- C8 counterexample: with a solver standing in for a failed
integration — it returns a truncated trajectory, here the empty list,
shorter than the two-point grid — `simulate` raises no
`IntegrationError`: it returns normally and silently stores the
truncated trajectory. -/
theorem simulate_no_integration_error :
    SIRWithDemography.simulate ⟨0.3, 0.1, 0.01, ⟨0.99, 0.01, 0⟩, none⟩
        (fun _ _ _ => []) [0, 1] =
      Except.ok ⟨0.3, 0.1, 0.01, ⟨0.99, 0.01, 0⟩, some []⟩ ∧
    SIRWithDemography.simulate ⟨0.3, 0.1, 0.01, ⟨0.99, 0.01, 0⟩, none⟩
        (fun _ _ _ => []) [0, 1] ≠
      Except.error ModelError.integrationError :=
  ⟨rfl, by simp [SIRWithDemography.simulate]⟩

/-- C8 amended: `simulate` performs no error handling in any variant:
for every solver outcome, model and time grid it returns normally,
storing the solver's output verbatim in `results`, and never returns an
`IntegrationError` (or any other error), even when the solver's output
is truncated or otherwise invalid. -/
theorem simulate_stores_solver_output :
    (∀ (m : SIRWithDemography)
        (odeint : (State3 → ℝ → State3) → State3 → List ℝ → List State3)
        (t : List ℝ),
        m.simulate odeint t =
          Except.ok { m with
            results := some (odeint (fun y s => m.sir_demography_equations y s)
              m.initial_conditions t) } ∧
        ∀ e : ModelError, m.simulate odeint t ≠ Except.error e) ∧
    (∀ (m : SEIRModel)
        (odeint : (State4 → ℝ → State4) → State4 → List ℝ → List State4)
        (t : List ℝ),
        m.simulate odeint t =
          Except.ok { m with
            results := some (odeint (fun y s => m.seir_equations y s)
              m.initial_conditions t) } ∧
        ∀ e : ModelError, m.simulate odeint t ≠ Except.error e) ∧
    (∀ (m : SEIRModelWithSeasonality)
        (odeint : (State4 → ℝ → State4) → State4 → List ℝ → List State4)
        (t : List ℝ),
        m.simulate odeint t =
          Except.ok { m with
            results := some (odeint (fun y s => m.seir_seasonal_equations y s)
              m.initial_conditions t) } ∧
        ∀ e : ModelError, m.simulate odeint t ≠ Except.error e) :=
  ⟨fun m odeint t => ⟨rfl, fun e => by simp [SIRWithDemography.simulate]⟩,
   fun m odeint t => ⟨rfl, fun e => by simp [SEIRModel.simulate]⟩,
   fun m odeint t => ⟨rfl, fun e => by simp [SEIRModelWithSeasonality.simulate]⟩⟩

/-- C9: in every variant, construction leaves the `results` attribute
absent (`none`), so a freshly constructed model carries no stored
trajectory; each `simulate` call then stores a fresh solver result in
`results`, replacing whatever was there, while the parameters and the
initial conditions are left unchanged. -/
theorem results_lifecycle :
    (∀ (b g mu : ℝ) (ic : State3),
        Except.map (fun m => m.results) (SIRWithDemography.init b g mu ic) =
          Except.ok none) ∧
    (∀ (b g s : ℝ) (ic : State4),
        Except.map (fun m => m.results) (SEIRModel.init b g s ic) =
          Except.ok none) ∧
    (∀ (b0 b1 g s : ℝ) (ic : State4),
        Except.map (fun m => m.results)
          (SEIRModelWithSeasonality.init b0 b1 g s ic) = Except.ok none) ∧
    (∀ (m : SIRWithDemography)
        (odeint : (State3 → ℝ → State3) → State3 → List ℝ → List State3)
        (t : List ℝ),
        Except.map (fun x => (x.results, x.beta, x.gamma, x.mu,
            x.initial_conditions)) (m.simulate odeint t) =
          Except.ok (some (odeint (fun y s => m.sir_demography_equations y s)
            m.initial_conditions t), m.beta, m.gamma, m.mu,
            m.initial_conditions)) ∧
    (∀ (m : SEIRModel)
        (odeint : (State4 → ℝ → State4) → State4 → List ℝ → List State4)
        (t : List ℝ),
        Except.map (fun x => (x.results, x.beta, x.gamma, x.sigma,
            x.initial_conditions)) (m.simulate odeint t) =
          Except.ok (some (odeint (fun y s => m.seir_equations y s)
            m.initial_conditions t), m.beta, m.gamma, m.sigma,
            m.initial_conditions)) ∧
    (∀ (m : SEIRModelWithSeasonality)
        (odeint : (State4 → ℝ → State4) → State4 → List ℝ → List State4)
        (t : List ℝ),
        Except.map (fun x => (x.results, x.beta, x.beta1, x.gamma, x.sigma,
            x.initial_conditions)) (m.simulate odeint t) =
          Except.ok (some (odeint (fun y s => m.seir_seasonal_equations y s)
            m.initial_conditions t), m.beta, m.beta1, m.gamma, m.sigma,
            m.initial_conditions)) :=
  ⟨fun _ _ _ _ => rfl, fun _ _ _ _ => rfl, fun _ _ _ _ _ => rfl,
   fun _ _ _ => rfl, fun _ _ _ => rfl, fun _ _ _ => rfl⟩

/-- C10: the SIR-with-Demography and base SEIR derivative functions are
autonomous: the time argument never changes their output; the seasonal
derivative function, by contrast, depends on the time argument at some
model, state and pair of times. -/
theorem derivative_autonomy :
    (∀ (m : SIRWithDemography) (y : State3) (t1 t2 : ℝ),
        m.sir_demography_equations y t1 = m.sir_demography_equations y t2) ∧
    (∀ (m : SEIRModel) (y : State4) (t1 t2 : ℝ),
        m.seir_equations y t1 = m.seir_equations y t2) ∧
    (∃ (m : SEIRModelWithSeasonality) (y : State4) (t1 t2 : ℝ),
        m.seir_seasonal_equations y t1 ≠ m.seir_seasonal_equations y t2) := by
  refine ⟨fun m y t1 t2 => rfl, fun m y t1 t2 => rfl,
    ⟨⟨1, 0, 0, ⟨1, 0, 1, 0⟩, none⟩, 1⟩, ⟨1, 0, 1, 0⟩, 0, 365 / 2, ?_⟩
  intro h
  have hS := congrArg State4.S h
  simp only [SEIRModelWithSeasonality.seir_seasonal_equations] at hS
  rw [show (2 * Real.pi * 0 / 365 : ℝ) = 0 by ring,
    show (2 * Real.pi * (365 / 2) / 365 : ℝ) = Real.pi by ring,
    Real.cos_zero, Real.cos_pi] at hS
  norm_num at hS
